import Mathlib

/-!
Shallow embedding of `custom_components/mass/media_player.py` (Music Assistant
media-player platform adapter) and proofs of the specification claims.

Conventions of the embedding:
* Python `float` time values are modelled as `ℚ` (exact arithmetic; the claims
  only involve comparisons and small literals).
* Python `None` becomes `Option.none`; Python truthiness of an optional string
  (`if media_type:`) is `pyTruthy` (non-`None` and non-empty).
* Attribute access on `None` (an `AttributeError`) is modelled by the
  `PyError` component of a result: Python mutates `self` attribute by
  attribute and then raises, so `async_on_update` returns the attributes as
  mutated so far, paired with `Option PyError`.
* String primitives (`.lower()`, `in`, `.split(sep, 1)`, `.replace`,
  `.isnumeric()`, `", ".join`) are re-implemented structurally on `List Char`
  so that concrete runs reduce in the kernel; `.lower()` / `.isnumeric()` are
  modelled on the ASCII range, which covers every string the claims use.
-/

namespace MassMediaPlayer

/-! ## Python-style string primitives -/

/-- Test whether `p` is a (contiguous) prefix of `s`. -/
def leadsWith : List Char → List Char → Bool
  | [], _ => true
  | _ :: _, [] => false
  | a :: as, b :: bs => a == b && leadsWith as bs

/-- Python `sub in s` (substring containment) on character lists. -/
def subIn (sub : List Char) : List Char → Bool
  | [] => sub.isEmpty
  | c :: t => leadsWith sub (c :: t) || subIn sub t

/-- Python `sub in s` for strings. -/
def pyContains (s sub : String) : Bool := subIn sub.data s.data

/-- Helper for `pySplitFirst`: find the first occurrence of `sep` and split
there, accumulating the scanned prefix in `acc`. -/
def splitFirstAux (sep : List Char) : List Char → List Char → Option (List Char × List Char)
  | [], _ => none
  | c :: t, acc =>
    if leadsWith sep (c :: t) then some (acc.reverse, (c :: t).drop sep.length)
    else splitFirstAux sep t (c :: acc)

/-- Python `s.split(sep, 1)` unpacked into two parts; in the source this is
only evaluated under a guard `sep in s`, so the `none` fallback is unreachable
there. -/
def pySplitFirst (s sep : String) : String × String :=
  match splitFirstAux sep.data s.data [] with
  | some (a, b) => (⟨a⟩, ⟨b⟩)
  | none => (s, "")

/-- Fuel-indexed worker for `pyReplace`; the fuel is the length of the scanned
list, which suffices because every step consumes at least one character when
the separator is non-empty. -/
def replaceAux (sep : List Char) : Nat → List Char → List Char
  | 0, s => s
  | _ + 1, [] => []
  | fuel + 1, c :: t =>
    if leadsWith sep (c :: t) then replaceAux sep fuel ((c :: t).drop sep.length)
    else c :: replaceAux sep fuel t

/-- Python `s.replace(sep, "")` (all occurrences removed). -/
def pyReplace (s sep : String) : String := ⟨replaceAux sep.data s.data.length s.data⟩

/-- Python `s.lower()`, restricted to the ASCII range (matches
`Char.toLower`). -/
def pyLower (s : String) : String := ⟨s.data.map Char.toLower⟩

/-- Python `s.isnumeric()` (restricted to ASCII digits, which is what the
claims exercise). -/
def pyIsNumeric (s : String) : Bool := !s.data.isEmpty && s.data.all Char.isDigit

/-- Python `", ".join(parts)`. -/
def joinComma : List String → String
  | [] => ""
  | [x] => x
  | x :: y :: t => x ++ ", " ++ joinComma (y :: t)

/-- Python truthiness of an optional string (`None` and `""` are falsy). -/
def pyTruthy : Option String → Bool
  | none => false
  | some s => !s.isEmpty

/-! ## Data model mirrored from the engine (`music_assistant.common.models`) -/

/-- An artist reference attached to a track or album. -/
structure ArtistRef where
  name : String
deriving DecidableEq, Repr

/-- An album reference attached to a track; the album may itself carry an
artist (`getattr(media_item.album, "artist", None)` in the source). -/
structure AlbumRef where
  name : String
  artist : Option ArtistRef
deriving DecidableEq, Repr

/-- The closed media-type tag set of the engine's media items. -/
inductive MediaTypeTag where
  | track
  | album
  | artist
  | playlist
  | radio
deriving DecidableEq, Repr

/-- A media item (track/album/artist/playlist/radio metadata); `version` is a
plain string with `""` meaning "no version tag", matching the engine model's
default. -/
structure MediaItem where
  name : String
  media_type : MediaTypeTag
  uri : String
  version : String
  artists : List ArtistRef
  album : Option AlbumRef
deriving DecidableEq, Repr

/-- An image reference on a queue item; only the provider tag matters to the
adapter (`image.provider == "url"`). -/
structure ImageRef where
  provider : String
  path : String
deriving DecidableEq, Repr

/-- An item of a player queue. -/
structure QueueItem where
  uri : String
  duration : Option Nat
  media_item : Option MediaItem
  image : Option ImageRef
deriving DecidableEq, Repr

/-- The engine's repeat-mode enum. -/
inductive RepeatModeTag where
  | off
  | one
  | all
deriving DecidableEq, Repr

/-- Python `.value` of the repeat-mode enum. -/
def repeatValue : RepeatModeTag → String
  | .off => "off"
  | .one => "one"
  | .all => "all"

/-- Python `RepeatMode(repeat)` enum coercion; `none` models the `ValueError`
raised on an unrecognized string. -/
def parseRepeat : String → Option RepeatModeTag
  | "off" => some .off
  | "one" => some .one
  | "all" => some .all
  | _ => none

/-- The engine's `PlayerQueue` model (the fields the adapter reads). -/
structure PlayerQueue where
  queue_id : String
  shuffle_enabled : Bool
  repeat_mode : RepeatModeTag
  elapsed_time : ℚ
  elapsed_time_last_updated : ℚ
  current_item : Option QueueItem
  current_index : Option Nat
deriving DecidableEq, Repr

/-- The engine's player-state enum (the members the adapter's
`STATE_MAPPING` covers). -/
inductive PlayerStateTag where
  | idle
  | playing
  | paused
deriving DecidableEq, Repr

/-- The engine's `Player` model (the fields the adapter reads). -/
structure Player where
  player_id : String
  powered : Bool
  state : PlayerStateTag
  volume_level : Nat
  volume_muted : Bool
  elapsed_time : ℚ
  elapsed_time_last_updated : ℚ
  current_url : Option String
  active_source : String
  group_childs : List String
  synced_to : Option String
deriving DecidableEq, Repr

/-! ## Platform-side state -/

/-- The platform's media-player state values used by the adapter
(`STATE_OFF`, `STATE_IDLE`, `STATE_PLAYING`, `STATE_PAUSED`). -/
inductive HAState where
  | off
  | idle
  | playing
  | paused
deriving DecidableEq, Repr

/-- `STATE_MAPPING` from the source: engine playback state to platform
state. -/
def STATE_MAPPING : PlayerStateTag → HAState
  | .idle => .idle
  | .playing => .playing
  | .paused => .paused

/-- Modelled from the spec: `DOMAIN` is imported from `const.py`, which is
not part of the sources; the spec calls it "the integration's own domain
name". Its concrete value is irrelevant to every claim. -/
def DOMAIN : String := "mass"

/-- A Python `AttributeError` (attribute access on `None`). -/
inductive PyError where
  | attributeError
deriving DecidableEq, Repr

/-- The adapter entity's attribute cache (the `_attr_*` fields plus the local
`_prev_time` debounce counter). Fields that the platform base class leaves
unset until the first refresh are `Option`s. -/
structure EntityAttrs where
  media_image_remotely_accessible : Bool
  media_position_updated_at : Option ℚ
  media_position : Option ℚ
  media_duration : Option Nat
  media_album_artist : Option String
  media_artist : Option String
  media_album_name : Option String
  media_title : Option String
  media_content_id : Option String
  media_content_type : String
  media_image_url : Option String
  prev_time : ℚ
  state : Option HAState
  app_id : Option String
  shuffle : Option Bool
  repeat_value_attr : Option String
  group_members : Option (List String)
  volume_level : Option ℚ
  is_volume_muted : Option Bool
deriving DecidableEq, Repr

/-- The attribute cache as initialized by `MassPlayer.__init__`. -/
def initAttrs : EntityAttrs where
  media_image_remotely_accessible := true
  media_position_updated_at := none
  media_position := none
  media_duration := none
  media_album_artist := none
  media_artist := none
  media_album_name := none
  media_title := none
  media_content_id := none
  media_content_type := "music"
  media_image_url := none
  prev_time := 0
  state := none
  app_id := none
  shuffle := none
  repeat_value_attr := none
  group_members := none
  volume_level := none
  is_volume_muted := none

/-! ## State projection (`async_on_update` and `_update_media_image_url`) -/

/-- `MassPlayer._update_media_image_url`: set the image attributes for the
active queue item, clearing the URL when no queue, item or image exists. -/
def update_media_image_url (get_image_url : ImageRef → String)
    (queue : Option PlayerQueue) (attrs : EntityAttrs) : EntityAttrs :=
  match queue with
  | none => { attrs with media_image_url := none }
  | some q =>
    match q.current_item with
    | none => { attrs with media_image_url := none }
    | some ci =>
      match ci.image with
      | some image =>
        { attrs with
          media_image_remotely_accessible := image.provider == "url"
          media_image_url := some (get_image_url image) }
      | none => { attrs with media_image_url := none }

/-- The current-media metadata fields computed by the second half of
`async_on_update` (lines 226-246 of the source). -/
structure MetaFields where
  media_artist : Option String
  media_album_artist : Option String
  media_album_name : Option String
  media_title : Option String
  media_content_id : Option String
  media_duration : Option Nat
deriving DecidableEq, Repr

/-- Lines 226-246 of `async_on_update`: defaults from the player, overwritten
from the queue's current item when it carries a media item; artist, version
suffix and album fields only for media type `track`. -/
def mediaMeta (player : Player) (queue : Option PlayerQueue) : MetaFields :=
  let base : MetaFields :=
    { media_artist := none
      media_album_artist := none
      media_album_name := none
      media_title := some player.active_source
      media_content_id := player.current_url
      media_duration := none }
  match queue with
  | none => base
  | some q =>
    match q.current_item with
    | none => base
    | some ci =>
      match ci.media_item with
      | none => base
      | some media_item =>
        let base := { base with
          media_title := some media_item.name
          media_content_id := some ci.uri
          media_duration := ci.duration }
        if media_item.media_type = MediaTypeTag.track then
          let base := { base with
            media_artist := some (joinComma (media_item.artists.map (·.name))) }
          let base :=
            if media_item.version ≠ "" then
              { base with media_title := some (media_item.name ++ " (" ++ media_item.version ++ ")") }
            else base
          match media_item.album with
          | none => base
          | some album =>
            let base := { base with media_album_name := some album.name }
            match album.artist with
            | none => base
            | some art => { base with media_album_artist := some art.name }
        else base

/-- `MassPlayer.async_on_update`: refresh every projected attribute from the
player and its (possibly absent) active queue. `from_utc_timestamp` (not in
the sources; per the spec a plain UTC-timestamp-to-datetime conversion) is
modelled as the identity on the rational timestamp. The returned `PyError`
component is `some .attributeError` exactly when the Python code raises —
which happens at `self._prev_time = queue.elapsed_time` when `queue` is
`None`; the first component holds the attributes as mutated up to that
point. -/
def async_on_update (available : Bool) (get_image_url : ImageRef → String)
    (get_player_queue : String → Option PlayerQueue)
    (player : Player) (attrs : EntityAttrs) : EntityAttrs × Option PyError :=
  if available = false then (attrs, none)
  else
    let queue : Option PlayerQueue := get_player_queue player.active_source
    let a1 := { attrs with
      state := some (if player.powered then STATE_MAPPING player.state else HAState.off)
      app_id := some (match queue with | some _ => DOMAIN | none => player.active_source)
      shuffle := Option.map (fun q : PlayerQueue => q.shuffle_enabled) queue
      repeat_value_attr := Option.map (fun q : PlayerQueue => repeatValue q.repeat_mode) queue
      group_members := some player.group_childs
      volume_level := some ((player.volume_level : ℚ) / 100)
      is_volume_muted := some player.volume_muted }
    let a2 := match queue with
      | some q =>
        { a1 with
          media_position := some q.elapsed_time
          media_position_updated_at := some q.elapsed_time_last_updated }
      | none =>
        { a1 with
          media_position := some player.elapsed_time
          media_position_updated_at := some player.elapsed_time_last_updated }
    match queue with
    | none => (a2, some PyError.attributeError)
    | some q =>
      let a3 := { a2 with prev_time := q.elapsed_time }
      let a4 := update_media_image_url get_image_url queue a3
      let md := mediaMeta player queue
      ({ a4 with
        media_artist := md.media_artist
        media_album_artist := md.media_album_artist
        media_album_name := md.media_album_name
        media_title := md.media_title
        media_content_id := md.media_content_id
        media_duration := md.media_duration }, none)

/-- The per-entity `queue_time_updated` callback registered in
`async_added_to_hass`: given the entity's player's active source and the
current `_prev_time`, return whether a full refresh + state write is
triggered, together with the new `_prev_time`. (When the refresh is
triggered it runs `async_on_update` first; the final handler line
`self._prev_time = event.data` runs unconditionally for a matching event.) -/
def queue_time_updated (active_source : String) (prev_time : ℚ)
    (object_id : String) (data : ℚ) : Bool × ℚ :=
  if object_id ≠ active_source then (false, prev_time)
  else if 5 < |prev_time - data| then (true, data)
  else (false, data)

/-! ## Engine command calls (`self.mass.players.*`) -/

/-- The engine's enqueue-option enum (`QueueOption`); `QUEUE_OPTION_MAP` in
the source maps the platform enum onto it 1:1. -/
inductive QueueOptionTag where
  | add
  | next
  | play
  | replace
deriving DecidableEq, Repr

/-- One remote call on the engine's player/queue command API, with its
arguments. Constructors are named after the client methods the source
invokes; `queue_command_*` are the queue-scoped variants, `player_command_*`
the player-scoped ones. -/
inductive EngineCall where
  | queue_command_play (target : String)
  | queue_command_pause (target : String)
  | queue_command_stop (target : String)
  | queue_command_next (target : String)
  | queue_command_previous (target : String)
  | queue_command_seek (target : String) (position : Int)
  | queue_command_shuffle (target : String) (shuffle : Bool)
  | queue_command_repeat (target : String) (mode : RepeatModeTag)
  | queue_command_clear (target : String)
  | player_command_volume_set (target : String) (volume : Int)
  | player_command_volume_mute (target : String) (mute : Bool)
  | player_command_volume_up (target : String)
  | player_command_volume_down (target : String)
  | player_command_power (target : String) (powered : Bool)
  | play_media (target : String) (media : List String)
      (option : Option QueueOptionTag) (radio_mode : Option Bool)
deriving DecidableEq, Repr

/-- Whether a call is one of the queue-scoped command variants
(`queue_command_*`). -/
def EngineCall.isQueueScoped : EngineCall → Bool
  | .queue_command_play _ => true
  | .queue_command_pause _ => true
  | .queue_command_stop _ => true
  | .queue_command_next _ => true
  | .queue_command_previous _ => true
  | .queue_command_seek _ _ => true
  | .queue_command_shuffle _ _ => true
  | .queue_command_repeat _ _ => true
  | .queue_command_clear _ => true
  | _ => false

/-- Whether a call is one of the player-scoped command variants
(`player_command_*`). -/
def EngineCall.isPlayerScoped : EngineCall → Bool
  | .player_command_volume_set _ _ => true
  | .player_command_volume_mute _ _ => true
  | .player_command_volume_up _ => true
  | .player_command_volume_down _ => true
  | .player_command_power _ _ => true
  | _ => false

/-- Python `int(x)` on a float: truncation toward zero. -/
def pyInt (x : ℚ) : Int := if 0 ≤ x then ⌊x⌋ else -⌊-x⌋

/-- The target id every queue command in the source resolves: the active
queue's id when `get_player_queue(player.active_source)` returns one, else
the entity's own `player_id`. -/
def commandTarget (get_player_queue : String → Option PlayerQueue)
    (player_id : String) (player : Player) : String :=
  match get_player_queue player.active_source with
  | some queue => queue.queue_id
  | none => player_id

/-- `MassPlayer.async_media_play`. -/
def async_media_play (get_player_queue : String → Option PlayerQueue)
    (player_id : String) (player : Player) : EngineCall :=
  match get_player_queue player.active_source with
  | some queue => .queue_command_play queue.queue_id
  | none => .queue_command_play player_id

/-- `MassPlayer.async_media_pause`. -/
def async_media_pause (get_player_queue : String → Option PlayerQueue)
    (player_id : String) (player : Player) : EngineCall :=
  match get_player_queue player.active_source with
  | some queue => .queue_command_pause queue.queue_id
  | none => .queue_command_pause player_id

/-- `MassPlayer.async_media_stop`. -/
def async_media_stop (get_player_queue : String → Option PlayerQueue)
    (player_id : String) (player : Player) : EngineCall :=
  match get_player_queue player.active_source with
  | some queue => .queue_command_stop queue.queue_id
  | none => .queue_command_stop player_id

/-- `MassPlayer.async_media_next_track`. -/
def async_media_next_track (get_player_queue : String → Option PlayerQueue)
    (player_id : String) (player : Player) : EngineCall :=
  match get_player_queue player.active_source with
  | some queue => .queue_command_next queue.queue_id
  | none => .queue_command_next player_id

/-- `MassPlayer.async_media_previous_track`. -/
def async_media_previous_track (get_player_queue : String → Option PlayerQueue)
    (player_id : String) (player : Player) : EngineCall :=
  match get_player_queue player.active_source with
  | some queue => .queue_command_previous queue.queue_id
  | none => .queue_command_previous player_id

/-- `MassPlayer.async_media_seek`; `position = int(position)` coerces the
float to an integer first. -/
def async_media_seek (get_player_queue : String → Option PlayerQueue)
    (player_id : String) (player : Player) (position : ℚ) : EngineCall :=
  let position := pyInt position
  match get_player_queue player.active_source with
  | some queue => .queue_command_seek queue.queue_id position
  | none => .queue_command_seek player_id position

/-- `MassPlayer.async_mute_volume`. -/
def async_mute_volume (player_id : String) (mute : Bool) : EngineCall :=
  .player_command_volume_mute player_id mute

/-- `MassPlayer.async_set_volume_level`; `volume = int(volume * 100)` scales
the platform's 0.0-1.0 float onto the engine's 0-100 integer scale. -/
def async_set_volume_level (player_id : String) (volume : ℚ) : EngineCall :=
  .player_command_volume_set player_id (pyInt (volume * 100))

/-- `MassPlayer.async_volume_up`. -/
def async_volume_up (player_id : String) : EngineCall :=
  .player_command_volume_up player_id

/-- `MassPlayer.async_volume_down`. -/
def async_volume_down (player_id : String) : EngineCall :=
  .player_command_volume_down player_id

/-- `MassPlayer.async_turn_on`. -/
def async_turn_on (player_id : String) : EngineCall :=
  .player_command_power player_id true

/-- `MassPlayer.async_turn_off`. -/
def async_turn_off (player_id : String) : EngineCall :=
  .player_command_power player_id false

/-- `MassPlayer.async_set_shuffle`. -/
def async_set_shuffle (get_player_queue : String → Option PlayerQueue)
    (player_id : String) (player : Player) (shuffle : Bool) : EngineCall :=
  match get_player_queue player.active_source with
  | some queue => .queue_command_shuffle queue.queue_id shuffle
  | none => .queue_command_shuffle player_id shuffle

/-- `MassPlayer.async_set_repeat`; `RepeatMode(repeat)` parses the incoming
string, raising `ValueError` (modelled as `none`) on an unrecognized one. -/
def async_set_repeat (get_player_queue : String → Option PlayerQueue)
    (player_id : String) (player : Player) (rep : String) : Option EngineCall :=
  match parseRepeat rep with
  | none => none
  | some mode =>
    match get_player_queue player.active_source with
    | some queue => some (.queue_command_repeat queue.queue_id mode)
    | none => some (.queue_command_repeat player_id mode)

/-- `MassPlayer.async_clear_playlist`. -/
def async_clear_playlist (get_player_queue : String → Option PlayerQueue)
    (player_id : String) (player : Player) : EngineCall :=
  match get_player_queue player.active_source with
  | some queue => .queue_command_clear queue.queue_id
  | none => .queue_command_clear player_id

/-! ## Media resolver (`_get_item_by_name`, `_async_play_media_advanced`) -/

/-- The five library lookup functions `_get_item_by_name` iterates, in source
order: `get_library_playlists`, `get_library_radios`, `get_library_albums`,
`get_library_tracks`, `get_library_artists`. -/
inductive LibKind where
  | playlists
  | radios
  | albums
  | tracks
  | artists
deriving DecidableEq, Repr

/-- Python `x.__name__` of each library lookup function, used for the
`media_type.lower() in x.__name__` filter. -/
def libFuncName : LibKind → String
  | .playlists => "get_library_playlists"
  | .radios => "get_library_radios"
  | .albums => "get_library_albums"
  | .tracks => "get_library_tracks"
  | .artists => "get_library_artists"

/-- The tuple order of library functions in the source. -/
def libOrder : List LibKind :=
  [.playlists, .radios, .albums, .tracks, .artists]

/-- The engine's fuzzy-search result object: one list of items per media
kind, scanned by the fallback in the order tracks, albums, playlists,
artists, radio. -/
structure SearchResults where
  tracks : List MediaItem
  albums : List MediaItem
  playlists : List MediaItem
  artists : List MediaItem
  radio : List MediaItem
deriving DecidableEq, Repr

/-- The engine's music API surface used by the resolver:
`get_item(media_type, id, "library")` — `none` models a raised
`MediaNotFoundError`; the five `get_library_*` lookups, keyed by `LibKind`
and the search string; and the global `search`, whose second argument is the
`media_types` scope (`some t` for `[media_type]`, `none` for
`MediaType.ALL`). -/
structure MusicAPI where
  get_item_library : String → String → Option MediaItem
  get_library : LibKind → String → List MediaItem
  search : String → Option String → SearchResults

/-- The exact-name loop of `_get_item_by_name`: first item of the result list
whose lowercased name equals the search string. -/
def findExact (searchname : String) (items : List MediaItem) : Option MediaItem :=
  items.find? (fun item => searchname == pyLower item.name)

/-- The inner accept test of the artist-split branch: item name equals the
title part (after lowercasing) and some artist name equals the artist
part. -/
def findSplitMatch (artistname title : String) (items : List MediaItem) : Option MediaItem :=
  items.find? (fun item =>
    pyLower item.name == title && item.artists.any (fun a => pyLower a.name == artistname))

/-- The `for splitter in (" - ", " by ")` loop of `_get_item_by_name` for one
library function: split the search string at the first occurrence of the
separator into (artist, title), re-query the library by title, and accept
only a split match. -/
def splitterLoop (music : MusicAPI) (k : LibKind) (searchname : String) :
    List String → Option MediaItem
  | [] => none
  | sep :: rest =>
    if pyContains searchname sep then
      let parts := pySplitFirst searchname sep
      match findSplitMatch parts.1 parts.2 (music.get_library k parts.2) with
      | some item => some item
      | none => splitterLoop music k searchname rest
    else splitterLoop music k searchname rest

/-- One iteration of the `for func in library_functions` loop: the exact-name
lookup, then — for the tracks and albums functions only — the artist-split
branch. -/
def libLookupOne (music : MusicAPI) (searchname : String) (k : LibKind) : Option MediaItem :=
  match findExact searchname (music.get_library k searchname) with
  | some item => some item
  | none =>
    if k = LibKind.tracks ∨ k = LibKind.albums then
      splitterLoop music k searchname [" - ", " by "]
    else none

/-- The whole `for func in library_functions` loop. -/
def libLoop (music : MusicAPI) (searchname : String) : List LibKind → Option MediaItem
  | [] => none
  | k :: rest =>
    match libLookupOne music searchname k with
    | some item => some item
    | none => libLoop music searchname rest

/-- The voice-command keyword scan of `_get_item_by_name`: for the first of
"artist ", "album ", "track ", "playlist " contained in the search string,
take the keyword as the media type and strip every occurrence of
keyword-plus-space from the search string. -/
def scanKeywords (searchname : String) : List String → Option String × String
  | [] => (none, searchname)
  | kw :: rest =>
    if pyContains searchname (kw ++ " ") then
      (some kw, pyReplace searchname (kw ++ " "))
    else scanKeywords searchname rest

/-- The fallback `self.mass.music.search` scan: first item found in the fixed
order tracks, albums, playlists, artists, radio. -/
def searchFallback (r : SearchResults) : Option MediaItem :=
  (r.tracks ++ r.albums ++ r.playlists ++ r.artists ++ r.radio).head?

/-- `MassPlayer._get_item_by_name`: lowercase the name, filter the library
functions by the type hint, optionally extract an embedded type keyword,
prefer exact library lookup (with the artist-split extension for tracks and
albums), and fall back to global search. Note the filter uses the *incoming*
hint: a keyword extracted afterwards only scopes the fallback search, exactly
as in the source. -/
def get_item_by_name (music : MusicAPI) (name : String)
    (media_type : Option String) : Option MediaItem :=
  let searchname := pyLower name
  let library_functions := libOrder.filter (fun k =>
    !pyTruthy media_type ||
      pyContains (libFuncName k) (pyLower (media_type.getD "")))
  let scanned :=
    if !pyTruthy media_type then
      scanKeywords searchname ["artist", "album", "track", "playlist"]
    else (media_type, searchname)
  let media_type := scanned.1
  let searchname := scanned.2
  match libLoop music searchname library_functions with
  | some item => some item
  | none =>
    searchFallback (music.search searchname
      (if pyTruthy media_type then media_type else none))

/-- The per-identifier resolution step of `_async_play_media_advanced`:
URI-shaped identifiers pass through; numeric identifiers under a type hint go
through the library-by-id lookup with `MediaNotFoundError` suppressed; the
rest (and not-found fall-through) go through name lookup. Returns the URI
appended to `media_uris`, or `none` when the identifier is dropped. -/
def resolveOne (music : MusicAPI) (media_type : Option String)
    (media_id_str : String) : Option String :=
  if pyContains media_id_str "://" then some media_id_str
  else
    let byId : Option String :=
      if pyTruthy media_type && pyIsNumeric media_id_str then
        Option.map (fun item : MediaItem => item.uri)
          (music.get_item_library (media_type.getD "") media_id_str)
      else none
    match byId with
    | some uri => some uri
    | none =>
      Option.map (fun item : MediaItem => item.uri)
        (get_item_by_name music media_id_str media_type)

/-- The `media_uris` accumulation loop of `_async_play_media_advanced`. -/
def resolveUris (music : MusicAPI) (media_type : Option String)
    (media_id : List String) : List String :=
  media_id.filterMap (resolveOne music media_type)

set_option linter.unusedVariables false in
/-- `MassPlayer._async_play_media_advanced`: resolve all identifiers, return
`none` (no engine call) when nothing resolved, else issue `play_media`
against the active queue's id or the player's own id. The `announce`
argument is accepted but unused in the source (its uses are commented
out), hence the disabled linter. -/
def play_media_advanced (music : MusicAPI)
    (get_player_queue : String → Option PlayerQueue)
    (player_id : String) (player : Player)
    (media_id : List String) (enqueue : Option QueueOptionTag)
    (announce : Option Bool) (radio_mode : Option Bool)
    (media_type : Option String) : Option EngineCall :=
  let media_uris := resolveUris music media_type media_id
  if media_uris.isEmpty then none
  else
    let queue_id :=
      match get_player_queue player.active_source with
      | some queue => queue.queue_id
      | none => player_id
    some (.play_media queue_id media_uris enqueue radio_mode)

/-! ## Concrete fixtures for witnesses and counterexamples -/

/-- An engine with no active queue for any source. -/
def noQueue : String → Option PlayerQueue := fun _ => none

/-- A trivial image-URL resolver. -/
def noImage : ImageRef → String := fun _ => ""

/-- A powered, playing player whose active source is itself (no queue). -/
def samplePlayer : Player where
  player_id := "p1"
  powered := true
  state := .playing
  volume_level := 50
  volume_muted := false
  elapsed_time := 30
  elapsed_time_last_updated := 1000
  current_url := some "http://example/stream"
  active_source := "p1"
  group_childs := []
  synced_to := none

/-- `samplePlayer` with the power off. -/
def offPlayer : Player := { samplePlayer with powered := false }

/-- An album media item that carries a version tag. -/
def albumMediaItem : MediaItem where
  name := "Greatest Hits"
  media_type := .album
  uri := "library://album/9"
  version := "Deluxe"
  artists := []
  album := none

/-- A queue item holding `albumMediaItem`. -/
def albumQueueItem : QueueItem where
  uri := "library://album/9"
  duration := some 3600
  media_item := some albumMediaItem
  image := none

/-- A queue whose current item is `albumQueueItem`. -/
def albumQueue : PlayerQueue where
  queue_id := "q1"
  shuffle_enabled := false
  repeat_mode := .off
  elapsed_time := 42
  elapsed_time_last_updated := 1001
  current_item := some albumQueueItem
  current_index := some 0

/-- An engine that reports `albumQueue` as every source's active queue. -/
def albumGpq : String → Option PlayerQueue := fun _ => some albumQueue

/-- A music API in which every lookup fails. -/
def emptyMusic : MusicAPI where
  get_item_library := fun _ _ => none
  get_library := fun _ _ => []
  search := fun _ _ => ⟨[], [], [], [], []⟩

/-- The track "Purple Rain" by "Prince". -/
def purpleRainTrack : MediaItem where
  name := "Purple Rain"
  media_type := .track
  uri := "library://track/123"
  version := ""
  artists := [⟨"Prince"⟩]
  album := none

/-- A music API whose track library answers the query "purple rain" with
`purpleRainTrack` and nothing else. -/
def c9Music : MusicAPI where
  get_item_library := fun _ _ => none
  get_library := fun k s =>
    if k == LibKind.tracks && s == "purple rain" then [purpleRainTrack] else []
  search := fun _ _ => ⟨[], [], [], [], []⟩

/-- A track stored in the library under id 42. -/
def track42 : MediaItem where
  name := "Answer"
  media_type := .track
  uri := "library://track/42"
  version := ""
  artists := []
  album := none

/-- A music API that resolves the library-by-id lookup `("track", "42")`. -/
def c8Music : MusicAPI where
  get_item_library := fun mt id =>
    if mt == "track" && id == "42" then some track42 else none
  get_library := fun _ _ => []
  search := fun _ _ => ⟨[], [], [], [], []⟩

/-- A track whose *name* is the digit string "42". -/
def fortyTwoTrack : MediaItem where
  name := "42"
  media_type := .track
  uri := "library://track/4242"
  version := ""
  artists := []
  album := none

/-- A music API whose library-by-id lookup always raises not-found, but whose
track library contains a track literally named "42". -/
def c8MusicMiss : MusicAPI where
  get_item_library := fun _ _ => none
  get_library := fun k s =>
    if k == LibKind.tracks && s == "42" then [fortyTwoTrack] else []
  search := fun _ _ => ⟨[], [], [], [], []⟩

/-! ## Helper lemmas -/

/-- `_update_media_image_url` only touches the image attributes: state,
volume, debounce counter and position pass through unchanged. -/
theorem update_media_image_url_preserves (gi : ImageRef → String)
    (queue : Option PlayerQueue) (a : EntityAttrs) :
    (update_media_image_url gi queue a).state = a.state ∧
    (update_media_image_url gi queue a).volume_level = a.volume_level ∧
    (update_media_image_url gi queue a).prev_time = a.prev_time ∧
    (update_media_image_url gi queue a).media_position = a.media_position := by
  unfold update_media_image_url
  rcases queue with _ | q
  · simp
  · rcases hci : q.current_item with _ | ci
    · simp [hci]
    · rcases him : ci.image with _ | im <;> simp [hci, him]

/-- The generic-attribute half of `async_on_update`: the projected playback
state, volume level and debounce counter, for an available entity, as
functions of the player and its queue. On the no-queue path the refresh
raises before reaching `_prev_time`. -/
theorem async_on_update_generic (gi : ImageRef → String)
    (gpq : String → Option PlayerQueue) (player : Player) (attrs : EntityAttrs) :
    (async_on_update true gi gpq player attrs).1.state =
      some (if player.powered then STATE_MAPPING player.state else HAState.off) ∧
    (async_on_update true gi gpq player attrs).1.volume_level =
      some ((player.volume_level : ℚ) / 100) ∧
    (∀ q, gpq player.active_source = some q →
      (async_on_update true gi gpq player attrs).1.prev_time = q.elapsed_time ∧
      (async_on_update true gi gpq player attrs).2 = none) ∧
    (gpq player.active_source = none →
      (async_on_update true gi gpq player attrs).1.prev_time = attrs.prev_time ∧
      (async_on_update true gi gpq player attrs).2 = some PyError.attributeError) := by
  unfold async_on_update
  cases hq : gpq player.active_source with
  | none => simp [hq]
  | some q =>
    have hpres := update_media_image_url_preserves gi (some q)
    simp only [hq, Bool.false_eq_true, if_false, reduceCtorEq]
    refine ⟨?_, ?_, ?_, ?_⟩ <;>
      simp [hq, (hpres _).1, (hpres _).2.1, (hpres _).2.2.1]

/-! ## Claim theorems -/

/-- C4: for a queue-time-updated event whose source id matches the player's
active source, a full state refresh and platform notification are triggered
if and only if the absolute difference between the event's elapsed time and
the last-seen value exceeds 5 seconds; with `previous = 100`, `data = 103`
triggers no refresh and `data = 106` does. -/
theorem c4_time_update_debounce (src : String) (prev : ℚ) (oid : String) (data : ℚ)
    (h : oid = src) :
    ((queue_time_updated src prev oid data).1 = true ↔ 5 < |prev - data|) ∧
    (queue_time_updated "q1" 100 "q1" 103).1 = false ∧
    (queue_time_updated "q1" 100 "q1" 106).1 = true := by
  subst h
  refine ⟨?_, ?_, ?_⟩
  · unfold queue_time_updated
    simp only [ne_eq, not_true_eq_false, if_false]
    split_ifs with h5 <;> simp [h5]
  · norm_num [queue_time_updated]
  · norm_num [queue_time_updated]

/-- C4 witness: the debounce criterion applied at the concrete event
`previous = 100`, `data = 106` on a matching source id. -/
theorem c4_time_update_debounce_witness :
    ((queue_time_updated "q1" 100 "q1" 106).1 = true ↔ 5 < |(100 : ℚ) - 106|) ∧
    (queue_time_updated "q1" 100 "q1" 103).1 = false := by
  have h := c4_time_update_debounce "q1" 100 "q1" 106 rfl
  exact ⟨h.1, h.2.1⟩

/-- C5: setting platform volume `v ∈ [0, 1]` issues the engine volume command
with `⌊v * 100⌋` against the player's id; projecting an engine volume `g ∈
[0, 100]` yields platform volume `g / 100`. -/
theorem c5_volume_round_trip :
    (∀ (pid : String) (v : ℚ), 0 ≤ v → v ≤ 1 →
      async_set_volume_level pid v =
        EngineCall.player_command_volume_set pid ⌊v * 100⌋) ∧
    (∀ (gi : ImageRef → String) (gpq : String → Option PlayerQueue)
        (player : Player) (attrs : EntityAttrs) (g : ℕ), g ≤ 100 →
      player.volume_level = g →
      (async_on_update true gi gpq player attrs).1.volume_level =
        some ((g : ℚ) / 100)) := by
  constructor
  · intro pid v h0 _
    have hnn : (0 : ℚ) ≤ v * 100 := by positivity
    simp [async_set_volume_level, pyInt, hnn]
  · intro gi gpq player attrs g _ hv
    have h := (async_on_update_generic gi gpq player attrs).2.1
    rw [h, hv]

/-- C5 witness: platform volume 1/2 issues engine volume 50; engine volume 50
projects to platform volume 1/2. -/
theorem c5_volume_round_trip_witness :
    async_set_volume_level "p1" (1 / 2) =
      EngineCall.player_command_volume_set "p1" 50 ∧
    (async_on_update true noImage albumGpq samplePlayer initAttrs).1.volume_level =
      some (1 / 2) := by
  constructor
  · have h := c5_volume_round_trip.1 "p1" (1 / 2) (by norm_num) (by norm_num)
    rw [h]
    norm_num
  · have h := c5_volume_round_trip.2 noImage albumGpq samplePlayer initAttrs 50
      (by norm_num) rfl
    rw [h]
    norm_num

/-- C6: for an available entity, a player with `powered = false` projects
state OFF regardless of the engine playback state, and a powered player's
engine state is mapped 1:1 through `STATE_MAPPING`. -/
theorem c6_power_state_projection (gi : ImageRef → String)
    (gpq : String → Option PlayerQueue) (player : Player) (attrs : EntityAttrs) :
    (player.powered = false →
      (async_on_update true gi gpq player attrs).1.state = some HAState.off) ∧
    (player.powered = true →
      (async_on_update true gi gpq player attrs).1.state =
        some (STATE_MAPPING player.state)) ∧
    STATE_MAPPING PlayerStateTag.idle = HAState.idle ∧
    STATE_MAPPING PlayerStateTag.playing = HAState.playing ∧
    STATE_MAPPING PlayerStateTag.paused = HAState.paused := by
  have h := (async_on_update_generic gi gpq player attrs).1
  refine ⟨?_, ?_, rfl, rfl, rfl⟩
  · intro hp
    rw [h, hp]
    simp
  · intro hp
    rw [h, hp]
    simp

/-- C6 witness: the unpowered `offPlayer` (whose engine state is `playing`)
projects OFF; the powered `samplePlayer` projects the 1:1 image of
`playing`. -/
theorem c6_power_state_projection_witness :
    (async_on_update true noImage albumGpq offPlayer initAttrs).1.state =
      some HAState.off ∧
    (async_on_update true noImage albumGpq samplePlayer initAttrs).1.state =
      some (STATE_MAPPING samplePlayer.state) := by
  constructor
  · exact (c6_power_state_projection noImage albumGpq offPlayer initAttrs).1 rfl
  · exact (c6_power_state_projection noImage albumGpq samplePlayer initAttrs).2.1 rfl

/-- C10: the `announce` argument of `_async_play_media_advanced` has no
effect — two invocations differing only in `announce` resolve the same URI
list and issue the identical engine call. -/
theorem c10_announce_no_effect (music : MusicAPI)
    (gpq : String → Option PlayerQueue) (pid : String) (player : Player)
    (media_id : List String) (enqueue : Option QueueOptionTag)
    (a1 a2 : Option Bool) (radio_mode : Option Bool) (media_type : Option String) :
    play_media_advanced music gpq pid player media_id enqueue a1 radio_mode media_type =
    play_media_advanced music gpq pid player media_id enqueue a2 radio_mode media_type := rfl

/-- C3 counterexample: on a player with no active queue, `async_media_play`
does not issue a player-scoped variant — it issues the queue-scoped
`queue_command_play`, merely targeted at the player's own id. -/
theorem c3_counterexample :
    async_media_play noQueue "p1" samplePlayer =
      EngineCall.queue_command_play "p1" ∧
    EngineCall.isPlayerScoped (async_media_play noQueue "p1" samplePlayer) = false ∧
    EngineCall.isQueueScoped (async_media_play noQueue "p1" samplePlayer) = true := by
  refine ⟨rfl, rfl, rfl⟩

/-- C3 (amended): every player-affecting playback command issues the
queue-scoped command variant in both cases; the target is the active queue's
id when a queue exists and the player's own id otherwise (there is no
player-scoped variant on the no-queue path). -/
theorem c3_command_targeting (gpq : String → Option PlayerQueue)
    (pid : String) (player : Player) :
    async_media_play gpq pid player =
      EngineCall.queue_command_play (commandTarget gpq pid player) ∧
    async_media_pause gpq pid player =
      EngineCall.queue_command_pause (commandTarget gpq pid player) ∧
    async_media_stop gpq pid player =
      EngineCall.queue_command_stop (commandTarget gpq pid player) ∧
    async_media_next_track gpq pid player =
      EngineCall.queue_command_next (commandTarget gpq pid player) ∧
    async_media_previous_track gpq pid player =
      EngineCall.queue_command_previous (commandTarget gpq pid player) ∧
    (∀ pos : ℚ, async_media_seek gpq pid player pos =
      EngineCall.queue_command_seek (commandTarget gpq pid player) (pyInt pos)) ∧
    (∀ sh : Bool, async_set_shuffle gpq pid player sh =
      EngineCall.queue_command_shuffle (commandTarget gpq pid player) sh) ∧
    (∀ r mode, parseRepeat r = some mode →
      async_set_repeat gpq pid player r =
        some (EngineCall.queue_command_repeat (commandTarget gpq pid player) mode)) ∧
    async_clear_playlist gpq pid player =
      EngineCall.queue_command_clear (commandTarget gpq pid player) ∧
    (∀ q, gpq player.active_source = some q →
      commandTarget gpq pid player = q.queue_id) ∧
    (gpq player.active_source = none → commandTarget gpq pid player = pid) ∧
    EngineCall.isQueueScoped (async_media_play gpq pid player) = true ∧
    EngineCall.isQueueScoped (async_clear_playlist gpq pid player) = true := by
  cases hq : gpq player.active_source with
  | none =>
    refine ⟨?_, ?_, ?_, ?_, ?_, ?_, ?_, ?_, ?_, ?_, ?_, ?_, ?_⟩ <;>
      try simp [async_media_play, async_media_pause, async_media_stop,
        async_media_next_track, async_media_previous_track, async_media_seek,
        async_set_shuffle, async_clear_playlist, commandTarget,
        EngineCall.isQueueScoped, hq]
    intro r mode hr
    simp [async_set_repeat, commandTarget, hq, hr]
  | some q =>
    refine ⟨?_, ?_, ?_, ?_, ?_, ?_, ?_, ?_, ?_, ?_, ?_, ?_, ?_⟩ <;>
      try simp [async_media_play, async_media_pause, async_media_stop,
        async_media_next_track, async_media_previous_track, async_media_seek,
        async_set_shuffle, async_clear_playlist, commandTarget,
        EngineCall.isQueueScoped, hq]
    intro r mode hr
    simp [async_set_repeat, commandTarget, hq, hr]

/-- C3 witness: with the active queue `albumQueue`, play targets "q1"; with
no queue, the command target is the player's own id; repeat-set with "all"
parses and targets the queue id. -/
theorem c3_command_targeting_witness :
    async_media_play albumGpq "p1" samplePlayer =
      EngineCall.queue_command_play (commandTarget albumGpq "p1" samplePlayer) ∧
    commandTarget albumGpq "p1" samplePlayer = "q1" ∧
    commandTarget noQueue "p1" samplePlayer = "p1" ∧
    async_set_repeat albumGpq "p1" samplePlayer "all" =
      some (EngineCall.queue_command_repeat
        (commandTarget albumGpq "p1" samplePlayer) RepeatModeTag.all) := by
  have h := c3_command_targeting albumGpq "p1" samplePlayer
  have h2 := c3_command_targeting noQueue "p1" samplePlayer
  refine ⟨h.1, ?_, ?_, ?_⟩
  · exact h.2.2.2.2.2.2.2.2.2.1 albumQueue rfl
  · exact h2.2.2.2.2.2.2.2.2.2.2.1 rfl
  · exact h.2.2.2.2.2.2.2.1 "all" RepeatModeTag.all rfl

/-- C1 counterexample: on an available entity with no active queue, the state
refresh does not complete — the read of the queue's elapsed time for the
debounce counter raises `AttributeError`, and `_prev_time` keeps its previous
value (0 here) rather than being set. -/
theorem c1_counterexample :
    (async_on_update true noImage noQueue samplePlayer initAttrs).2 =
      some PyError.attributeError ∧
    (async_on_update true noImage noQueue samplePlayer initAttrs).1.prev_time = 0 := by
  refine ⟨rfl, rfl⟩

/-- C1 (amended): after the position/time branch, when an active queue
exists, `_prev_time` is set from the queue's elapsed time and the refresh
completes without error; when no queue exists, the assignment raises
`AttributeError` — `_prev_time` is left unchanged and the refresh aborts
instead of completing. -/
theorem c1_prev_time_assignment (gi : ImageRef → String)
    (gpq : String → Option PlayerQueue) (player : Player) (attrs : EntityAttrs) :
    (∀ q, gpq player.active_source = some q →
      (async_on_update true gi gpq player attrs).1.prev_time = q.elapsed_time ∧
      (async_on_update true gi gpq player attrs).2 = none) ∧
    (gpq player.active_source = none →
      (async_on_update true gi gpq player attrs).1.prev_time = attrs.prev_time ∧
      (async_on_update true gi gpq player attrs).2 = some PyError.attributeError) := by
  exact ⟨(async_on_update_generic gi gpq player attrs).2.2.1,
    (async_on_update_generic gi gpq player attrs).2.2.2⟩

/-- C1 witness: with the active queue `albumQueue` (elapsed time 42) the
refresh sets `_prev_time := 42` and completes; with no queue it raises. -/
theorem c1_prev_time_assignment_witness :
    (async_on_update true noImage albumGpq samplePlayer initAttrs).1.prev_time = 42 ∧
    (async_on_update true noImage albumGpq samplePlayer initAttrs).2 = none ∧
    (async_on_update true noImage noQueue samplePlayer initAttrs).2 =
      some PyError.attributeError := by
  have h := (c1_prev_time_assignment noImage albumGpq samplePlayer initAttrs).1
    albumQueue rfl
  have h2 := (c1_prev_time_assignment noImage noQueue samplePlayer initAttrs).2 rfl
  exact ⟨h.1, h.2, h2.2⟩

/-- When the queue's current item carries a media item, the metadata block
yields the queue item's URI and duration unconditionally, and the title gets
the version suffix exactly when the media type is `track` and the version
tag is non-empty. -/
theorem mediaMeta_item (player : Player) (q : PlayerQueue) (ci : QueueItem)
    (mi : MediaItem) (hci : q.current_item = some ci) (hmi : ci.media_item = some mi) :
    (mediaMeta player (some q)).media_content_id = some ci.uri ∧
    (mediaMeta player (some q)).media_duration = ci.duration ∧
    (mediaMeta player (some q)).media_title =
      some (if mi.media_type = MediaTypeTag.track ∧ mi.version ≠ ""
        then mi.name ++ " (" ++ mi.version ++ ")" else mi.name) := by
  unfold mediaMeta
  simp only [hci, hmi]
  by_cases ht : mi.media_type = MediaTypeTag.track
  · by_cases hv : mi.version = ""
    · rcases ha : mi.album with _ | alb
      · simp [ht, hv, ha]
      · rcases hart : alb.artist with _ | art <;> simp [ht, hv, ha, hart]
    · rcases ha : mi.album with _ | alb
      · simp [ht, hv, ha]
      · rcases hart : alb.artist with _ | art <;> simp [ht, hv, ha, hart]
  · simp [ht]

/-- For an available entity with an active queue, the media attributes of the
refresh equal the metadata block's fields. -/
theorem async_on_update_media (gi : ImageRef → String)
    (gpq : String → Option PlayerQueue) (player : Player) (attrs : EntityAttrs)
    (q : PlayerQueue) (hq : gpq player.active_source = some q) :
    (async_on_update true gi gpq player attrs).1.media_title =
      (mediaMeta player (some q)).media_title ∧
    (async_on_update true gi gpq player attrs).1.media_content_id =
      (mediaMeta player (some q)).media_content_id ∧
    (async_on_update true gi gpq player attrs).1.media_duration =
      (mediaMeta player (some q)).media_duration := by
  unfold async_on_update
  simp [hq]

/-- C2 counterexample: for a queue item whose attached media item is an
*album* with version tag "Deluxe", the projected title is the bare item name
— the claim's "version appended regardless of media type" predicts
"Greatest Hits (Deluxe)". -/
theorem c2_counterexample :
    (async_on_update true noImage albumGpq samplePlayer initAttrs).1.media_title =
      some "Greatest Hits" ∧
    (async_on_update true noImage albumGpq samplePlayer initAttrs).1.media_title ≠
      some "Greatest Hits (Deluxe)" := by
  have h : (async_on_update true noImage albumGpq samplePlayer initAttrs).1.media_title =
      some "Greatest Hits" := rfl
  refine ⟨h, ?_⟩
  rw [h]
  simp

/-- C2 (amended): when the active queue's current item carries a media item,
the projected content-id is the queue item's URI and the duration the queue
item's duration; the title is the item name, with " (<version>)" appended
exactly when the media item's type is `track` *and* it has a version tag —
not regardless of type. -/
theorem c2_media_item_projection (gi : ImageRef → String)
    (gpq : String → Option PlayerQueue) (player : Player) (attrs : EntityAttrs)
    (q : PlayerQueue) (ci : QueueItem) (mi : MediaItem)
    (hq : gpq player.active_source = some q)
    (hci : q.current_item = some ci) (hmi : ci.media_item = some mi) :
    (async_on_update true gi gpq player attrs).1.media_content_id = some ci.uri ∧
    (async_on_update true gi gpq player attrs).1.media_duration = ci.duration ∧
    (async_on_update true gi gpq player attrs).1.media_title =
      some (if mi.media_type = MediaTypeTag.track ∧ mi.version ≠ ""
        then mi.name ++ " (" ++ mi.version ++ ")" else mi.name) := by
  have hm := async_on_update_media gi gpq player attrs q hq
  have hi := mediaMeta_item player q ci mi hci hmi
  exact ⟨hm.2.1.trans hi.1, hm.2.2.trans hi.2.1, hm.1.trans hi.2.2⟩

/-- C2 witness: the album fixture — content-id and duration come from the
queue item, and the title stays "Greatest Hits" because the type is not
`track`. -/
theorem c2_media_item_projection_witness :
    (async_on_update true noImage albumGpq samplePlayer initAttrs).1.media_content_id =
      some "library://album/9" ∧
    (async_on_update true noImage albumGpq samplePlayer initAttrs).1.media_duration =
      some 3600 ∧
    (async_on_update true noImage albumGpq samplePlayer initAttrs).1.media_title =
      some "Greatest Hits" := by
  have h := c2_media_item_projection noImage albumGpq samplePlayer initAttrs
    albumQueue albumQueueItem albumMediaItem rfl rfl rfl
  simpa using h

/-- C7: an identifier that fails to resolve is silently dropped from the URI
list (no error for partial failure), and when every identifier fails the
advanced play-media handler is a no-op: no engine call is issued. -/
theorem c7_silent_drop_noop (music : MusicAPI) (mt : Option String) :
    (∀ (pre post : List String) (x : String), resolveOne music mt x = none →
      resolveUris music mt (pre ++ x :: post) = resolveUris music mt (pre ++ post)) ∧
    (∀ (media_id : List String) (gpq : String → Option PlayerQueue)
        (pid : String) (player : Player) (enq : Option QueueOptionTag)
        (ann rm : Option Bool),
      resolveUris music mt media_id = [] →
      play_media_advanced music gpq pid player media_id enq ann rm mt = none) := by
  constructor
  · intro pre post x hx
    simp [resolveUris, List.filterMap_append, List.filterMap_cons, hx]
  · intro media_id gpq pid player enq ann rm h
    simp [play_media_advanced, h]

/-- C7 witness: with an engine whose every lookup fails, "nosuch" is dropped
from the list and a request in which nothing resolves issues no call. -/
theorem c7_silent_drop_noop_witness :
    resolveUris emptyMusic none ["x://u", "nosuch"] =
      resolveUris emptyMusic none ["x://u"] ∧
    play_media_advanced emptyMusic noQueue "p1" samplePlayer ["nosuch"]
      none none none none = none := by
  have h := c7_silent_drop_noop emptyMusic none
  exact ⟨h.1 ["x://u"] [] "nosuch" rfl,
    h.2 ["nosuch"] noQueue "p1" samplePlayer none none none rfl⟩

/-- C8: per-identifier resolution order — a "://" identifier passes through
as-is; a numeric identifier under a truthy media-type hint goes to the
library-by-id lookup first, and on `MediaNotFoundError` falls through to the
name-based lookup instead of failing. -/
theorem c8_resolution_order (music : MusicAPI) (mt : Option String) (s : String) :
    (pyContains s "://" = true → resolveOne music mt s = some s) ∧
    (∀ (mtv : String) (item : MediaItem), mt = some mtv → pyTruthy mt = true →
      pyIsNumeric s = true → pyContains s "://" = false →
      music.get_item_library mtv s = some item →
      resolveOne music mt s = some item.uri) ∧
    (∀ mtv : String, mt = some mtv → pyTruthy mt = true →
      pyIsNumeric s = true → pyContains s "://" = false →
      music.get_item_library mtv s = none →
      resolveOne music mt s =
        Option.map (fun item : MediaItem => item.uri) (get_item_by_name music s mt)) := by
  refine ⟨?_, ?_, ?_⟩
  · intro h
    simp [resolveOne, h]
  · intro mtv item hmt htr hnum hnc hlib
    subst hmt
    simp [resolveOne, htr, hnum, hnc, hlib]
  · intro mtv hmt htr hnum hnc hlib
    subst hmt
    simp [resolveOne, htr, hnum, hnc, hlib]

/-- C8 witness: "abc://track/1" resolves as-is; "42" with hint "track"
resolves through the library-by-id lookup; with a not-found library the same
identifier falls through to the name lookup (which here finds the track
named "42"). -/
theorem c8_resolution_order_witness :
    resolveOne c8Music (some "track") "abc://track/1" = some "abc://track/1" ∧
    resolveOne c8Music (some "track") "42" = some "library://track/42" ∧
    resolveOne c8MusicMiss (some "track") "42" =
      Option.map (fun item : MediaItem => item.uri)
        (get_item_by_name c8MusicMiss "42" (some "track")) ∧
    get_item_by_name c8MusicMiss "42" (some "track") = some fortyTwoTrack := by
  refine ⟨?_, ?_, ?_, rfl⟩
  · exact (c8_resolution_order c8Music (some "track") "abc://track/1").1 rfl
  · exact (c8_resolution_order c8Music (some "track") "42").2.1 "track" track42
      rfl rfl rfl rfl rfl
  · exact (c8_resolution_order c8MusicMiss (some "track") "42").2.2 "track"
      rfl rfl rfl rfl rfl

/-- Soundness of the split-branch accept test: an item it returns comes from
the queried list, its lowercased name equals the title part, and one of its
artists' lowercased names equals the artist part. -/
theorem findSplitMatch_sound (artistname title : String) (items : List MediaItem)
    (item : MediaItem) (h : findSplitMatch artistname title items = some item) :
    item ∈ items ∧ pyLower item.name = title ∧
      ∃ a ∈ item.artists, pyLower a.name = artistname := by
  simp only [findSplitMatch] at h
  have hmem := List.mem_of_find?_eq_some h
  have hp := List.find?_some h
  simp only [Bool.and_eq_true, beq_iff_eq, List.any_eq_true] at hp
  exact ⟨hmem, hp.1, by simpa using hp.2⟩

/-- Soundness of the splitter loop: an item it returns was found by splitting
the search string at the first occurrence of one of the separators it was
given, re-querying the library by the title part, and passing the exact
name/artist accept test. -/
theorem splitterLoop_sound (music : MusicAPI) (k : LibKind) (searchname : String) :
    ∀ (seps : List String) (item : MediaItem),
      splitterLoop music k searchname seps = some item →
      ∃ sep ∈ seps, pyContains searchname sep = true ∧
        pyLower item.name = (pySplitFirst searchname sep).2 ∧
        (∃ a ∈ item.artists, pyLower a.name = (pySplitFirst searchname sep).1) ∧
        item ∈ music.get_library k (pySplitFirst searchname sep).2 := by
  intro seps
  induction seps with
  | nil =>
    intro item h
    simp [splitterLoop] at h
  | cons sep rest ih =>
    intro item h
    simp only [splitterLoop] at h
    by_cases hc : pyContains searchname sep = true
    · rw [if_pos hc] at h
      cases hf : findSplitMatch (pySplitFirst searchname sep).1
          (pySplitFirst searchname sep).2
          (music.get_library k (pySplitFirst searchname sep).2) with
      | some it =>
        rw [hf] at h
        cases h
        have hs := findSplitMatch_sound _ _ _ _ hf
        exact ⟨sep, List.mem_cons_self sep rest, hc, hs.2.1, hs.2.2, hs.1⟩
      | none =>
        rw [hf] at h
        obtain ⟨s, hmem, hrest⟩ := ih item h
        exact ⟨s, List.mem_cons_of_mem sep hmem, hrest⟩
    · rw [if_neg hc] at h
      obtain ⟨s, hmem, hrest⟩ := ih item h
      exact ⟨s, List.mem_cons_of_mem sep hmem, hrest⟩

/-- C9: in the track/album library lookups, when the normalized search string
contains " - " or " by " it is split at the first occurrence into (artist,
title), the library is re-queried with the title, and an item is accepted
only if its name equals the title exactly (case-insensitively) and one of
its artists equals the artist part; in particular "prince - purple rain"
with no hint resolves to the track "Purple Rain" by "Prince" through this
branch. -/
theorem c9_artist_split :
    (∀ (music : MusicAPI) (k : LibKind) (searchname : String) (item : MediaItem),
      splitterLoop music k searchname [" - ", " by "] = some item →
      ∃ sep ∈ ([" - ", " by "] : List String), pyContains searchname sep = true ∧
        pyLower item.name = (pySplitFirst searchname sep).2 ∧
        (∃ a ∈ item.artists, pyLower a.name = (pySplitFirst searchname sep).1) ∧
        item ∈ music.get_library k (pySplitFirst searchname sep).2) ∧
    get_item_by_name c9Music "prince - purple rain" none = some purpleRainTrack ∧
    splitterLoop c9Music LibKind.tracks "prince - purple rain" [" - ", " by "] =
      some purpleRainTrack := by
  refine ⟨?_, rfl, rfl⟩
  intro music k searchname item h
  exact splitterLoop_sound music k searchname [" - ", " by "] item h

/-- C9 witness: the split-branch soundness instantiated at the concrete
"prince - purple rain" lookup. -/
theorem c9_artist_split_witness :
    ∃ sep ∈ ([" - ", " by "] : List String),
      pyContains "prince - purple rain" sep = true ∧
      pyLower purpleRainTrack.name = (pySplitFirst "prince - purple rain" sep).2 ∧
      (∃ a ∈ purpleRainTrack.artists,
        pyLower a.name = (pySplitFirst "prince - purple rain" sep).1) ∧
      purpleRainTrack ∈
        c9Music.get_library LibKind.tracks (pySplitFirst "prince - purple rain" sep).2 :=
  c9_artist_split.1 c9Music LibKind.tracks "prince - purple rain" purpleRainTrack rfl

end MassMediaPlayer
